import Mathlib

/-!
Shallow embedding of `src/latlngbounds.py`: the `LatLngPoint` and
`LatLngBounds` classes with validated construction, latitude-clamping /
longitude-wrapping arithmetic, and antimeridian-aware containment.

Numeric coordinates (Python `int` or `float`) are modelled as exact rationals
`ℚ`; the arithmetic in the source is only addition, subtraction and order
comparison, which agree with exact arithmetic on the values of interest.
Dynamically typed arguments are modelled by the `PyObj` sum type, and
exceptions by `Except GeoError`.
-/

/-- A constructed latitude/longitude point: the two attributes set by
`LatLngPoint.__init__` after validation. -/
structure LatLngPoint where
  latitude : ℚ
  longitude : ℚ
deriving DecidableEq

/-- A dynamically typed Python value passed to one of the library's
entry points: a numeric value (`int`/`float`, collapsed to its exact rational
value), a `LatLngPoint` instance, or a string (standing for the
non-numeric, non-point arguments exercised by the source's tests). -/
inductive PyObj where
  | num (q : ℚ)
  | point (p : LatLngPoint)
  | str (s : String)
deriving DecidableEq

/-- The two exception kinds raised by the source: `TypeError` (InvalidType)
and `ValueError` (InvalidValue), each carrying its message string. -/
inductive GeoError where
  | invalidType (msg : String)
  | invalidValue (msg : String)
deriving DecidableEq

/-- Is the argument numeric, i.e. does `type(x) in [int, float]` hold? -/
def PyObj.isNum : PyObj → Bool
  | .num _ => true
  | _ => false

/-- Is the argument a `LatLngPoint` instance (`isinstance(x, LatLngPoint)`)? -/
def PyObj.isPoint : PyObj → Bool
  | .point _ => true
  | _ => false

/-- Rendering of `"%s" % type(x)`, the type of a value as interpolated into
the source's `TypeError` messages (quote characters of the Python rendering
omitted). -/
def PyObj.typeStr : PyObj → String
  | .num _ => "<type float>"
  | .point _ => "<type instance>"
  | .str _ => "<type str>"

/-- Rendering of `"%.2f" % q`: the value rounded to two decimal places.
The rounded integer `n` is the floor of `q * 100 + 1 / 2`, computed on the
numerator and denominator so that it evaluates by kernel reduction. -/
def fmt2 (q : ℚ) : String :=
  let n : ℤ := Int.fdiv (200 * q.num + (q.den : ℤ)) (2 * (q.den : ℤ))
  let sign := if n < 0 then "-" else ""
  let m := n.natAbs
  let frac := m % 100
  sign ++ toString (m / 100) ++ "." ++ (if frac < 10 then "0" else "") ++ toString frac

/-- `LatLngPoint.__str__`: `"(%.2f, %.2f)" % (self.latitude, self.longitude)`. -/
def LatLngPoint.toStr (self : LatLngPoint) : String :=
  "(" ++ fmt2 self.latitude ++ ", " ++ fmt2 self.longitude ++ ")"

/-- `LatLngPoint.__init__(inLat, inLng)`: type checks (latitude first), then
bounds checks (latitude first), then sets the attributes. -/
def LatLngPoint.init (inLat inLng : PyObj) : Except GeoError LatLngPoint :=
  match inLat with
  | .num lat =>
    match inLng with
    | .num lng =>
      if lat < -90 ∨ lat > 90 then
        Except.error (GeoError.invalidValue
          ("invalid latitude value: expected [-90.0, 90.0]: got: " ++ fmt2 lat))
      else if lng < -180 ∨ lng > 180 then
        Except.error (GeoError.invalidValue
          ("invalid longitude value: expected [-180.0, 180.0], got: " ++ fmt2 lng))
      else
        Except.ok ⟨lat, lng⟩
    | o => Except.error (GeoError.invalidType
        ("invalid type for longitude: expected <float>|<int> got: " ++ o.typeStr))
  | o => Except.error (GeoError.invalidType
      ("invalid type for latitude: expected <float>|<int> got: " ++ o.typeStr))

/-- `LatLngPoint.__add__(self, inOther)`: isinstance check, clamp of the
latitude sum, single wrap of the longitude sum, then construction of the
result through `LatLngPoint.__init__`. -/
def LatLngPoint.add (self : LatLngPoint) (inOther : PyObj) : Except GeoError LatLngPoint :=
  match inOther with
  | .point other =>
    let newLat := self.latitude + other.latitude
    let newLat := if newLat > 90 then (90 : ℚ) else if newLat < -90 then (-90 : ℚ) else newLat
    let newLng := self.longitude + other.longitude
    let newLng :=
      if newLng > 180 then -180 + (newLng - 180)
      else if newLng < -180 then 180 + (newLng + 180)
      else newLng
    LatLngPoint.init (PyObj.num newLat) (PyObj.num newLng)
  | o => Except.error (GeoError.invalidType
      ("invalid type for add: expected LatLngPoint got: " ++ o.typeStr))

/-- `LatLngPoint.__sub__(self, inOther)`: isinstance check, clamp of the
latitude difference, single wrap of the longitude difference, then
construction of the result through `LatLngPoint.__init__`. -/
def LatLngPoint.sub (self : LatLngPoint) (inOther : PyObj) : Except GeoError LatLngPoint :=
  match inOther with
  | .point other =>
    let newLat := self.latitude - other.latitude
    let newLat := if newLat > 90 then (90 : ℚ) else if newLat < -90 then (-90 : ℚ) else newLat
    let newLng := self.longitude - other.longitude
    let newLng :=
      if newLng > 180 then -180 + (newLng - 180)
      else if newLng < -180 then 180 + (newLng + 180)
      else newLng
    LatLngPoint.init (PyObj.num newLat) (PyObj.num newLng)
  | o => Except.error (GeoError.invalidType
      ("invalid type for subtract: expected LatLngPoint got: " ++ o.typeStr))

/-- A constructed bounds: the `SW`, `NE` and `crossDateline` attributes set
by `LatLngBounds.__init__` after validation. -/
structure LatLngBounds where
  SW : LatLngPoint
  NE : LatLngPoint
  crossDateline : Bool
deriving DecidableEq

/-- `LatLngBounds.__init__(inSW, inNE)`: isinstance checks (SW first), the
two positive-area value checks (latitude first), then the dateline flag. -/
def LatLngBounds.init (inSW inNE : PyObj) : Except GeoError LatLngBounds :=
  match inSW with
  | .point sw =>
    match inNE with
    | .point ne =>
      if sw.latitude ≥ ne.latitude then
        Except.error (GeoError.invalidValue
          ("invalid latitude bounds: south coord: " ++ sw.toStr ++
            " must be less than north coord: " ++ ne.toStr))
      else if sw.longitude = ne.longitude then
        Except.error (GeoError.invalidValue
          ("invalid longitude bounds: west coord: " ++ sw.toStr ++
            " must not be equal to east coord: " ++ ne.toStr))
      else
        let crossDateline := if sw.longitude > ne.longitude then true else false
        Except.ok ⟨sw, ne, crossDateline⟩
    | o => Except.error (GeoError.invalidType
        ("invalid type for NE point: expected LatLngPoint got: " ++ o.typeStr))
  | o => Except.error (GeoError.invalidType
      ("invalid type for SW point: expected LatLngPoint got: " ++ o.typeStr))

/-- `LatLngBounds.Contains(self, inPoint)`: isinstance check, then the
dateline branch (start from `rv = True` and reject on the latitude test or the
closed complement band) or the straight branch (all four comparisons strict). -/
def LatLngBounds.Contains (self : LatLngBounds) (inPoint : PyObj) : Except GeoError Bool :=
  match inPoint with
  | .point p =>
    if self.crossDateline then
      let rv := true
      let rv := if p.latitude ≤ self.SW.latitude ∨ p.latitude ≥ self.NE.latitude then false else rv
      let rv := if p.longitude ≥ self.NE.longitude ∧ p.longitude ≤ self.SW.longitude then false else rv
      Except.ok rv
    else
      let rv :=
        if p.latitude > self.SW.latitude ∧ p.latitude < self.NE.latitude ∧
           p.longitude > self.SW.longitude ∧ p.longitude < self.NE.longitude then true
        else false
      Except.ok rv
  | o => Except.error (GeoError.invalidType
      ("invalid type for point: expected LatLngPoint got: " ++ o.typeStr))

/-- The class invariant of `LatLngPoint`: both fields in their valid range. -/
abbrev LatLngPoint.Valid (p : LatLngPoint) : Prop :=
  -90 ≤ p.latitude ∧ p.latitude ≤ 90 ∧ -180 ≤ p.longitude ∧ p.longitude ≤ 180

/-- Did the call raise `InvalidType`? -/
def isInvalidType {α : Type} : Except GeoError α → Bool
  | Except.error (GeoError.invalidType _) => true
  | _ => false

/-- Did the call raise `InvalidValue`? -/
def isInvalidValue {α : Type} : Except GeoError α → Bool
  | Except.error (GeoError.invalidValue _) => true
  | _ => false

/-- In-range coordinates make `LatLngPoint.init` succeed and set the fields. -/
theorem LatLngPoint.init_ok (lat lng : ℚ) (h1 : -90 ≤ lat) (h2 : lat ≤ 90)
    (h3 : -180 ≤ lng) (h4 : lng ≤ 180) :
    LatLngPoint.init (PyObj.num lat) (PyObj.num lng) = Except.ok ⟨lat, lng⟩ := by
  have hA : ¬ (lat < -90 ∨ lat > 90) := by push_neg; exact ⟨by linarith, by linarith⟩
  have hB : ¬ (lng < -180 ∨ lng > 180) := by push_neg; exact ⟨by linarith, by linarith⟩
  simp [LatLngPoint.init, hA, hB]

/-- Adding a point to a valid point succeeds and yields the clamped latitude
sum and single-wrapped longitude sum. -/
theorem LatLngPoint.add_point (a b : LatLngPoint)
    (h3 : -180 ≤ a.longitude) (h4 : a.longitude ≤ 180)
    (h5 : -180 ≤ b.longitude) (h6 : b.longitude ≤ 180) :
    a.add (PyObj.point b) = Except.ok
      ⟨if a.latitude + b.latitude > 90 then 90
          else if a.latitude + b.latitude < -90 then -90 else a.latitude + b.latitude,
        if a.longitude + b.longitude > 180 then -180 + (a.longitude + b.longitude - 180)
          else if a.longitude + b.longitude < -180 then 180 + (a.longitude + b.longitude + 180)
          else a.longitude + b.longitude⟩ := by
  simp only [LatLngPoint.add]
  apply LatLngPoint.init_ok <;> split_ifs <;> linarith

/-- Subtracting a point from a valid point succeeds and yields the clamped
latitude difference and single-wrapped longitude difference. -/
theorem LatLngPoint.sub_point (a b : LatLngPoint)
    (h3 : -180 ≤ a.longitude) (h4 : a.longitude ≤ 180)
    (h5 : -180 ≤ b.longitude) (h6 : b.longitude ≤ 180) :
    a.sub (PyObj.point b) = Except.ok
      ⟨if a.latitude - b.latitude > 90 then 90
          else if a.latitude - b.latitude < -90 then -90 else a.latitude - b.latitude,
        if a.longitude - b.longitude > 180 then -180 + (a.longitude - b.longitude - 180)
          else if a.longitude - b.longitude < -180 then 180 + (a.longitude - b.longitude + 180)
          else a.longitude - b.longitude⟩ := by
  simp only [LatLngPoint.sub]
  apply LatLngPoint.init_ok <;> split_ifs <;> linarith

/-- Two points with a positive latitude span and distinct longitudes make
`LatLngBounds.init` succeed, with the dateline flag set by comparison. -/
theorem LatLngBounds.init_accepts (sw ne : LatLngPoint) (hlat : sw.latitude < ne.latitude)
    (hlng : sw.longitude ≠ ne.longitude) :
    LatLngBounds.init (PyObj.point sw) (PyObj.point ne) =
      Except.ok ⟨sw, ne, decide (sw.longitude > ne.longitude)⟩ := by
  simp only [LatLngBounds.init]
  rw [if_neg (not_le.mpr hlat), if_neg hlng]
  split_ifs with h <;> simp [h]

/-- Inversion of a successful `LatLngBounds.init`: the fields echo the
arguments, the two value checks passed, and the flag is the comparison. -/
theorem LatLngBounds.init_inversion (sw ne : LatLngPoint) (b : LatLngBounds)
    (h : LatLngBounds.init (PyObj.point sw) (PyObj.point ne) = Except.ok b) :
    b.SW = sw ∧ b.NE = ne ∧ sw.latitude < ne.latitude ∧ sw.longitude ≠ ne.longitude ∧
      b.crossDateline = decide (sw.longitude > ne.longitude) := by
  by_cases h1 : sw.latitude ≥ ne.latitude
  · rw [show LatLngBounds.init (PyObj.point sw) (PyObj.point ne) = Except.error
        (GeoError.invalidValue ("invalid latitude bounds: south coord: " ++ sw.toStr ++
          " must be less than north coord: " ++ ne.toStr)) by
      simp only [LatLngBounds.init]; rw [if_pos h1]] at h
    exact Except.noConfusion h
  by_cases h2 : sw.longitude = ne.longitude
  · rw [show LatLngBounds.init (PyObj.point sw) (PyObj.point ne) = Except.error
        (GeoError.invalidValue ("invalid longitude bounds: west coord: " ++ sw.toStr ++
          " must not be equal to east coord: " ++ ne.toStr)) by
      simp only [LatLngBounds.init]; rw [if_neg h1, if_pos h2]] at h
    exact Except.noConfusion h
  rw [LatLngBounds.init_accepts sw ne (not_le.mp h1) h2] at h
  injection h with h'
  subst h'
  exact ⟨rfl, rfl, not_le.mp h1, h2, rfl⟩

/-- Shape of `Contains` on a point when the bounds crosses the dateline:
reject on the closed complement band or on the strict latitude test. -/
theorem LatLngBounds.Contains_point_cross (b : LatLngBounds) (p : LatLngPoint)
    (hx : b.crossDateline = true) :
    b.Contains (PyObj.point p) = Except.ok
      (if p.longitude ≥ b.NE.longitude ∧ p.longitude ≤ b.SW.longitude then false
        else if p.latitude ≤ b.SW.latitude ∨ p.latitude ≥ b.NE.latitude then false
        else true) := by
  obtain ⟨SW, NE, flag⟩ := b
  simp only at hx
  subst hx
  rfl

/-- Shape of `Contains` on a point when the bounds does not cross the
dateline: all four comparisons strict. -/
theorem LatLngBounds.Contains_point_straight (b : LatLngBounds) (p : LatLngPoint)
    (hx : b.crossDateline = false) :
    b.Contains (PyObj.point p) = Except.ok
      (if p.latitude > b.SW.latitude ∧ p.latitude < b.NE.latitude ∧
          p.longitude > b.SW.longitude ∧ p.longitude < b.NE.longitude then true
        else false) := by
  obtain ⟨SW, NE, flag⟩ := b
  simp only at hx
  subst hx
  rfl

/-- C1: construction succeeds and echoes the inputs for every numeric pair
with latitude in [-90, 90] and longitude in [-180, 180] (boundaries
included); a non-numeric argument fails with InvalidType, and a numeric
argument outside its range fails with InvalidValue. -/
theorem point_construct_spec (lat lng : ℚ) (a b : PyObj) :
    ((-90 ≤ lat ∧ lat ≤ 90) → (-180 ≤ lng ∧ lng ≤ 180) →
      LatLngPoint.init (PyObj.num lat) (PyObj.num lng) = Except.ok ⟨lat, lng⟩) ∧
    (a.isNum = false → isInvalidType (LatLngPoint.init a b) = true) ∧
    (b.isNum = false → isInvalidType (LatLngPoint.init (PyObj.num lat) b) = true) ∧
    ((lat < -90 ∨ 90 < lat) →
      isInvalidValue (LatLngPoint.init (PyObj.num lat) (PyObj.num lng)) = true) ∧
    ((-90 ≤ lat ∧ lat ≤ 90) → (lng < -180 ∨ 180 < lng) →
      isInvalidValue (LatLngPoint.init (PyObj.num lat) (PyObj.num lng)) = true) := by
  refine ⟨fun h1 h2 => LatLngPoint.init_ok lat lng h1.1 h1.2 h2.1 h2.2, ?_, ?_, ?_, ?_⟩
  · intro ha
    cases a with
    | num q => exact absurd ha (by simp [PyObj.isNum])
    | point p => rfl
    | str s => rfl
  · intro hb
    cases b with
    | num q => exact absurd hb (by simp [PyObj.isNum])
    | point p => rfl
    | str s => rfl
  · intro h
    simp only [LatLngPoint.init]
    rw [if_pos h]
    rfl
  · intro h1 h2
    have hA : ¬ (lat < -90 ∨ lat > 90) := by push_neg; exact ⟨by linarith [h1.1], by linarith [h1.2]⟩
    simp only [LatLngPoint.init]
    rw [if_neg hA, if_pos h2]
    rfl

/-- Witness for C1 at concrete inputs: boundary construction succeeds, and
the type and value error branches are hit. -/
theorem point_construct_spec_witness :
    LatLngPoint.init (PyObj.num 90) (PyObj.num (-180)) = Except.ok ⟨90, -180⟩ ∧
    isInvalidType (LatLngPoint.init (PyObj.str ("23.0")) (PyObj.num 100)) = true ∧
    isInvalidType (LatLngPoint.init (PyObj.num 45) (PyObj.str ("45.0"))) = true ∧
    isInvalidValue (LatLngPoint.init (PyObj.num 91) (PyObj.num 100)) = true ∧
    isInvalidValue (LatLngPoint.init (PyObj.num 45) (PyObj.num 181)) = true :=
  ⟨(point_construct_spec 90 (-180) (PyObj.num 0) (PyObj.num 0)).1
      (by norm_num) (by norm_num),
    (point_construct_spec 45 100 (PyObj.str ("23.0")) (PyObj.num 100)).2.1 rfl,
    (point_construct_spec 45 100 (PyObj.num 45) (PyObj.str ("45.0"))).2.2.1 rfl,
    (point_construct_spec 91 100 (PyObj.num 0) (PyObj.num 0)).2.2.2.1 (Or.inr (by norm_num)),
    (point_construct_spec 45 181 (PyObj.num 0) (PyObj.num 0)).2.2.2.2
      (by norm_num) (Or.inr (by norm_num))⟩

/-- C2: for a constructed bounds crossing the antimeridian, `Contains` is
true iff the strict latitude test passes and the longitude does not lie in
the closed gap [NE.longitude, SW.longitude]; in particular a point whose
longitude equals either corner longitude is not contained. -/
theorem contains_crossing_spec (b : LatLngBounds) (p : LatLngPoint)
    (hb : ∃ sw ne, LatLngBounds.init (PyObj.point sw) (PyObj.point ne) = Except.ok b)
    (hx : b.crossDateline = true) :
    (b.Contains (PyObj.point p) = Except.ok true ↔
      ((b.SW.latitude < p.latitude ∧ p.latitude < b.NE.latitude) ∧
        ¬ (b.NE.longitude ≤ p.longitude ∧ p.longitude ≤ b.SW.longitude))) ∧
    ((p.longitude = b.NE.longitude ∨ p.longitude = b.SW.longitude) →
      b.Contains (PyObj.point p) = Except.ok false) := by
  have hC := LatLngBounds.Contains_point_cross b p hx
  have hgt : b.NE.longitude < b.SW.longitude := by
    obtain ⟨sw, ne, h⟩ := hb
    obtain ⟨hSW, hNE, hlat, hlng, hflag⟩ := LatLngBounds.init_inversion sw ne b h
    rw [hx] at hflag
    rw [hSW, hNE]
    exact of_decide_eq_true hflag.symm
  constructor
  · rw [hC]
    split_ifs with hG hL
    · exact iff_of_false (fun hf => Bool.noConfusion (Except.ok.inj hf))
        (fun hr => hr.2 hG)
    · refine iff_of_false (fun hf => Bool.noConfusion (Except.ok.inj hf)) (fun hr => ?_)
      rcases hL with h | h
      · exact absurd hr.1.1 (not_lt.mpr h)
      · exact absurd hr.1.2 (not_lt.mpr h)
    · push_neg at hL
      exact iff_of_true rfl ⟨hL, hG⟩
  · intro hedge
    have hgap : p.longitude ≥ b.NE.longitude ∧ p.longitude ≤ b.SW.longitude := by
      rcases hedge with h | h <;> rw [h] <;> exact ⟨by linarith, by linarith⟩
    rw [hC, if_pos hgap]

/-- Witness for C2 at a concrete dateline-crossing bounds: a point inside the
region past 180 degrees is contained, while one in the gap would not be. -/
theorem contains_crossing_spec_witness :
    LatLngBounds.Contains ⟨⟨10, 170⟩, ⟨30, -170⟩, true⟩ (PyObj.point ⟨20, 175⟩) =
      Except.ok true :=
  ((contains_crossing_spec ⟨⟨10, 170⟩, ⟨30, -170⟩, true⟩ ⟨20, 175⟩
      ⟨⟨10, 170⟩, ⟨30, -170⟩, by rw [LatLngBounds.init_accepts] <;> norm_num⟩ rfl).1).mpr
    (by norm_num)

/-- C3: for a bounds not crossing the antimeridian, `Contains` is true iff
all four corner comparisons hold strictly; a point exactly on any edge is
not contained. -/
theorem contains_straight_spec (b : LatLngBounds) (p : LatLngPoint)
    (hx : b.crossDateline = false) :
    (b.Contains (PyObj.point p) = Except.ok true ↔
      (b.SW.latitude < p.latitude ∧ p.latitude < b.NE.latitude ∧
        b.SW.longitude < p.longitude ∧ p.longitude < b.NE.longitude)) ∧
    ((p.latitude = b.SW.latitude ∨ p.latitude = b.NE.latitude ∨
        p.longitude = b.SW.longitude ∨ p.longitude = b.NE.longitude) →
      b.Contains (PyObj.point p) = Except.ok false) := by
  have hC := LatLngBounds.Contains_point_straight b p hx
  constructor
  · rw [hC]
    split_ifs with hA
    · exact iff_of_true rfl hA
    · exact iff_of_false (fun hf => Bool.noConfusion (Except.ok.inj hf)) hA
  · intro hedge
    rw [hC, if_neg ?_]
    rintro ⟨c1, c2, c3, c4⟩
    rcases hedge with h | h | h | h <;> linarith

/-- Witness for C3 at the spec's example bounds SW=(10,10), NE=(30,30): the
center is contained and the west edge midpoint is not. -/
theorem contains_straight_spec_witness :
    LatLngBounds.Contains ⟨⟨10, 10⟩, ⟨30, 30⟩, false⟩ (PyObj.point ⟨20, 20⟩) =
        Except.ok true ∧
    LatLngBounds.Contains ⟨⟨10, 10⟩, ⟨30, 30⟩, false⟩ (PyObj.point ⟨20, 10⟩) =
        Except.ok false :=
  ⟨((contains_straight_spec ⟨⟨10, 10⟩, ⟨30, 30⟩, false⟩ ⟨20, 20⟩ rfl).1).mpr (by norm_num),
    (contains_straight_spec ⟨⟨10, 10⟩, ⟨30, 30⟩, false⟩ ⟨20, 10⟩ rfl).2
      (Or.inr (Or.inr (Or.inl rfl)))⟩

/-- C4: Add and Subtract take the algebraic longitude sum/difference and
apply a single-wrap correction: minus 360 strictly above 180, plus 360
strictly below -180, unchanged otherwise (exact boundaries included); with
the spec's two wrap examples. -/
theorem add_sub_longitude_spec (a b : LatLngPoint) (ha : a.Valid) (hb : b.Valid) :
    (∃ p, a.add (PyObj.point b) = Except.ok p ∧
      p.longitude =
        (if 180 < a.longitude + b.longitude then a.longitude + b.longitude - 360
          else if a.longitude + b.longitude < -180 then a.longitude + b.longitude + 360
          else a.longitude + b.longitude)) ∧
    (∃ p, a.sub (PyObj.point b) = Except.ok p ∧
      p.longitude =
        (if 180 < a.longitude - b.longitude then a.longitude - b.longitude - 360
          else if a.longitude - b.longitude < -180 then a.longitude - b.longitude + 360
          else a.longitude - b.longitude)) ∧
    LatLngPoint.add ⟨10, 170⟩ (PyObj.point ⟨0, 20⟩) = Except.ok ⟨10, -170⟩ ∧
    LatLngPoint.add ⟨10, -170⟩ (PyObj.point ⟨0, -20⟩) = Except.ok ⟨10, 170⟩ := by
  obtain ⟨h1, h2, h3, h4⟩ := ha
  obtain ⟨h5, h6, h7, h8⟩ := hb
  refine ⟨⟨_, LatLngPoint.add_point a b h3 h4 h7 h8, ?_⟩,
    ⟨_, LatLngPoint.sub_point a b h3 h4 h7 h8, ?_⟩, ?_, ?_⟩
  · dsimp only
    split_ifs <;> ring
  · dsimp only
    split_ifs <;> ring
  · rw [LatLngPoint.add_point ⟨10, 170⟩ ⟨0, 20⟩ (by norm_num) (by norm_num)
      (by norm_num) (by norm_num)]
    norm_num
  · rw [LatLngPoint.add_point ⟨10, -170⟩ ⟨0, -20⟩ (by norm_num) (by norm_num)
      (by norm_num) (by norm_num)]
    norm_num

/-- Witness for C4: the first wrap example, obtained through the theorem at
concrete valid points. -/
theorem add_sub_longitude_spec_witness :
    LatLngPoint.add ⟨10, 170⟩ (PyObj.point ⟨0, 20⟩) = Except.ok ⟨10, -170⟩ :=
  (add_sub_longitude_spec ⟨10, 170⟩ ⟨0, 20⟩ (by norm_num [LatLngPoint.Valid])
    (by norm_num [LatLngPoint.Valid])).2.2.1

/-- C5: Add and Subtract take the algebraic latitude sum/difference and
clamp it to exactly 90 above 90 and to exactly -90 below -90, with no
wraparound; with the spec's two clamp examples. -/
theorem add_sub_latitude_spec (a b : LatLngPoint) (ha : a.Valid) (hb : b.Valid) :
    (∃ p, a.add (PyObj.point b) = Except.ok p ∧
      p.latitude =
        (if 90 < a.latitude + b.latitude then 90
          else if a.latitude + b.latitude < -90 then -90 else a.latitude + b.latitude)) ∧
    (∃ p, a.sub (PyObj.point b) = Except.ok p ∧
      p.latitude =
        (if 90 < a.latitude - b.latitude then 90
          else if a.latitude - b.latitude < -90 then -90 else a.latitude - b.latitude)) ∧
    LatLngPoint.add ⟨80, 10⟩ (PyObj.point ⟨20, 0⟩) = Except.ok ⟨90, 10⟩ ∧
    LatLngPoint.add ⟨-80, 10⟩ (PyObj.point ⟨-20, 0⟩) = Except.ok ⟨-90, 10⟩ := by
  obtain ⟨h1, h2, h3, h4⟩ := ha
  obtain ⟨h5, h6, h7, h8⟩ := hb
  refine ⟨⟨_, LatLngPoint.add_point a b h3 h4 h7 h8, rfl⟩,
    ⟨_, LatLngPoint.sub_point a b h3 h4 h7 h8, rfl⟩, ?_, ?_⟩
  · rw [LatLngPoint.add_point ⟨80, 10⟩ ⟨20, 0⟩ (by norm_num) (by norm_num)
      (by norm_num) (by norm_num)]
    norm_num
  · rw [LatLngPoint.add_point ⟨-80, 10⟩ ⟨-20, 0⟩ (by norm_num) (by norm_num)
      (by norm_num) (by norm_num)]
    norm_num

/-- Witness for C5: the first clamp example, obtained through the theorem at
concrete valid points. -/
theorem add_sub_latitude_spec_witness :
    LatLngPoint.add ⟨80, 10⟩ (PyObj.point ⟨20, 0⟩) = Except.ok ⟨90, 10⟩ :=
  (add_sub_latitude_spec ⟨80, 10⟩ ⟨20, 0⟩ (by norm_num [LatLngPoint.Valid])
    (by norm_num [LatLngPoint.Valid])).2.2.1

/-- C6: on valid operands, Add and Subtract always produce an in-range
point, so the internal `LatLngPoint.__init__` call succeeds and the
InvalidValue branch is unreachable from these operations. -/
theorem add_sub_total_spec (a b : LatLngPoint) (ha : a.Valid) (hb : b.Valid) :
    (∃ p, a.add (PyObj.point b) = Except.ok p ∧ p.Valid) ∧
    (∃ p, a.sub (PyObj.point b) = Except.ok p ∧ p.Valid) ∧
    isInvalidValue (a.add (PyObj.point b)) = false ∧
    isInvalidValue (a.sub (PyObj.point b)) = false := by
  obtain ⟨h1, h2, h3, h4⟩ := ha
  obtain ⟨h5, h6, h7, h8⟩ := hb
  have hA := LatLngPoint.add_point a b h3 h4 h7 h8
  have hS := LatLngPoint.sub_point a b h3 h4 h7 h8
  refine ⟨⟨_, hA, ?_, ?_, ?_, ?_⟩, ⟨_, hS, ?_, ?_, ?_, ?_⟩,
    by rw [hA]; rfl, by rw [hS]; rfl⟩ <;>
    dsimp only <;> split_ifs <;> linarith

/-- Witness for C6: a pole-clamped, in-range addition, obtained through the
theorem at concrete valid points. -/
theorem add_sub_total_spec_witness :
    isInvalidValue (LatLngPoint.add ⟨80, 10⟩ (PyObj.point ⟨20, 0⟩)) = false :=
  (add_sub_total_spec ⟨80, 10⟩ ⟨20, 0⟩ (by norm_num [LatLngPoint.Valid])
    (by norm_num [LatLngPoint.Valid])).2.2.1

/-- C7: bounds construction fails with InvalidValue exactly when the
latitude span is not positive or the longitudes are equal, succeeds
otherwise, and checks each argument's type independently, southwest first,
failing with InvalidType for a non-point operand. -/
theorem bounds_construct_spec (sw ne : LatLngPoint) (o o2 : PyObj) :
    (isInvalidValue (LatLngBounds.init (PyObj.point sw) (PyObj.point ne)) = true ↔
      (sw.latitude ≥ ne.latitude ∨ sw.longitude = ne.longitude)) ∧
    (sw.latitude < ne.latitude → sw.longitude ≠ ne.longitude →
      ∃ bd, LatLngBounds.init (PyObj.point sw) (PyObj.point ne) = Except.ok bd) ∧
    (o.isPoint = false →
      LatLngBounds.init o o2 = Except.error (GeoError.invalidType
        ("invalid type for SW point: expected LatLngPoint got: " ++ o.typeStr))) ∧
    (o2.isPoint = false →
      LatLngBounds.init (PyObj.point sw) o2 = Except.error (GeoError.invalidType
        ("invalid type for NE point: expected LatLngPoint got: " ++ o2.typeStr))) := by
  refine ⟨?_, ?_, ?_, ?_⟩
  · by_cases h1 : sw.latitude ≥ ne.latitude
    · refine iff_of_true ?_ (Or.inl h1)
      simp only [LatLngBounds.init]
      rw [if_pos h1]
      rfl
    · by_cases h2 : sw.longitude = ne.longitude
      · refine iff_of_true ?_ (Or.inr h2)
        simp only [LatLngBounds.init]
        rw [if_neg h1, if_pos h2]
        rfl
      · refine iff_of_false ?_ ?_
        · rw [LatLngBounds.init_accepts sw ne (not_le.mp h1) h2]
          simp [isInvalidValue]
        · rintro (h | h)
          exacts [h1 h, h2 h]
  · intro hlt hne
    exact ⟨_, LatLngBounds.init_accepts sw ne hlt hne⟩
  · intro ho
    cases o with
    | num q => rfl
    | point pp => exact absurd ho (by simp [PyObj.isPoint])
    | str s => rfl
  · intro ho
    cases o2 with
    | num q => rfl
    | point pp => exact absurd ho (by simp [PyObj.isPoint])
    | str s => rfl

/-- Witness for C7 at the source's own test inputs: an inverted latitude
pair is rejected, a proper pair is accepted, and each non-point argument is
reported with its type, southwest first. -/
theorem bounds_construct_spec_witness :
    isInvalidValue (LatLngBounds.init (PyObj.point ⟨10, 10⟩) (PyObj.point ⟨-10, 20⟩)) = true ∧
    (∃ bd, LatLngBounds.init (PyObj.point ⟨10, 10⟩) (PyObj.point ⟨30, 30⟩) = Except.ok bd) ∧
    LatLngBounds.init (PyObj.str ("(23.0, 45.0)")) (PyObj.point ⟨24, 46⟩) =
      Except.error (GeoError.invalidType
        ("invalid type for SW point: expected LatLngPoint got: " ++
          PyObj.typeStr (PyObj.str ("(23.0, 45.0)")))) ∧
    LatLngBounds.init (PyObj.point ⟨23, 45⟩) (PyObj.str ("(24.0, 46.0)")) =
      Except.error (GeoError.invalidType
        ("invalid type for NE point: expected LatLngPoint got: " ++
          PyObj.typeStr (PyObj.str ("(24.0, 46.0)")))) :=
  ⟨(bounds_construct_spec ⟨10, 10⟩ ⟨-10, 20⟩ (PyObj.num 0) (PyObj.num 0)).1.mpr
      (Or.inl (by norm_num)),
    (bounds_construct_spec ⟨10, 10⟩ ⟨30, 30⟩ (PyObj.num 0) (PyObj.num 0)).2.1
      (by norm_num) (by norm_num),
    (bounds_construct_spec ⟨23, 45⟩ ⟨24, 46⟩ (PyObj.str ("(23.0, 45.0)"))
      (PyObj.point ⟨24, 46⟩)).2.2.1 rfl,
    (bounds_construct_spec ⟨23, 45⟩ ⟨24, 46⟩ (PyObj.num 0)
      (PyObj.str ("(24.0, 46.0)"))).2.2.2 rfl⟩

/-- C8: on a successfully constructed bounds the dateline flag is true iff
the southwest longitude strictly exceeds the northeast longitude at
construction time, and the two corner points are stored unchanged. -/
theorem cross_flag_spec (sw ne : LatLngPoint) (b : LatLngBounds)
    (h : LatLngBounds.init (PyObj.point sw) (PyObj.point ne) = Except.ok b) :
    (b.crossDateline = true ↔ sw.longitude > ne.longitude) ∧ b.SW = sw ∧ b.NE = ne := by
  obtain ⟨hSW, hNE, hlat, hlng, hflag⟩ := LatLngBounds.init_inversion sw ne b h
  refine ⟨?_, hSW, hNE⟩
  rw [hflag]
  simp

/-- Witness for C8 at a dateline-crossing pair: the flag comes out true. -/
theorem cross_flag_spec_witness :
    (⟨⟨10, 170⟩, ⟨30, -170⟩, true⟩ : LatLngBounds).crossDateline = true :=
  ((cross_flag_spec ⟨10, 170⟩ ⟨30, -170⟩ ⟨⟨10, 170⟩, ⟨30, -170⟩, true⟩
    (by rw [LatLngBounds.init_accepts] <;> norm_num)).1).mpr (by norm_num)

/-- C10: no point at either pole is ever contained: a latitude of exactly
90 or -90 fails the strict latitude test of both branches whenever the two
corner points are valid. -/
theorem contains_pole_spec (b : LatLngBounds) (p : LatLngPoint)
    (hsw : b.SW.Valid) (hne : b.NE.Valid)
    (hp : p.latitude = 90 ∨ p.latitude = -90) :
    b.Contains (PyObj.point p) = Except.ok false := by
  obtain ⟨s1, s2, s3, s4⟩ := hsw
  obtain ⟨n1, n2, n3, n4⟩ := hne
  rcases Bool.dichotomy b.crossDateline with hx | hx
  · rw [LatLngBounds.Contains_point_straight b p hx, if_neg ?_]
    rintro ⟨c1, c2, c3, c4⟩
    rcases hp with h | h <;> linarith
  · rw [LatLngBounds.Contains_point_cross b p hx]
    split_ifs with hG hL
    · rfl
    · rfl
    · push_neg at hL
      obtain ⟨hL1, hL2⟩ := hL
      exfalso
      rcases hp with h | h <;> linarith

/-- Witness for C10: the north pole above a mid-latitude bounds is not
contained. -/
theorem contains_pole_spec_witness :
    LatLngBounds.Contains ⟨⟨10, 10⟩, ⟨30, 30⟩, false⟩ (PyObj.point ⟨90, 20⟩) =
      Except.ok false :=
  contains_pole_spec ⟨⟨10, 10⟩, ⟨30, 30⟩, false⟩ ⟨90, 20⟩
    (by norm_num [LatLngPoint.Valid]) (by norm_num [LatLngPoint.Valid]) (Or.inl rfl)

/-- C9 counterexample: the InvalidType message raised for a non-numeric
latitude reports the argument's type only; it contains no digit at all, so
it cannot include the invalid value formatted to two decimal places. -/
theorem error_msg_counterexample :
    LatLngPoint.init (PyObj.str ("23.0")) (PyObj.num 45) =
      Except.error (GeoError.invalidType
        ("invalid type for latitude: expected <float>|<int> got: " ++
          PyObj.typeStr (PyObj.str ("23.0")))) ∧
    ("invalid type for latitude: expected <float>|<int> got: " ++
        PyObj.typeStr (PyObj.str ("23.0"))).data.all (fun c => !c.isDigit) = true :=
  ⟨rfl, by decide⟩

/-- C9 amended: InvalidValue messages include the offending value(s)
formatted to two decimal places (for bounds construction through the two
stringified points), while InvalidType messages of every operation report
the offending argument's type instead of the value. -/
theorem error_msg_amended (lat lng : ℚ) (sw ne : LatLngPoint) (o : PyObj)
    (ho : o.isPoint = false) (ho2 : o.isNum = false) :
    ((lat < -90 ∨ 90 < lat) → LatLngPoint.init (PyObj.num lat) (PyObj.num lng) =
      Except.error (GeoError.invalidValue
        ("invalid latitude value: expected [-90.0, 90.0]: got: " ++ fmt2 lat))) ∧
    ((-90 ≤ lat ∧ lat ≤ 90) → (lng < -180 ∨ 180 < lng) →
      LatLngPoint.init (PyObj.num lat) (PyObj.num lng) =
        Except.error (GeoError.invalidValue
          ("invalid longitude value: expected [-180.0, 180.0], got: " ++ fmt2 lng))) ∧
    (sw.latitude ≥ ne.latitude → LatLngBounds.init (PyObj.point sw) (PyObj.point ne) =
      Except.error (GeoError.invalidValue
        ("invalid latitude bounds: south coord: " ++ sw.toStr ++
          " must be less than north coord: " ++ ne.toStr))) ∧
    (sw.latitude < ne.latitude → sw.longitude = ne.longitude →
      LatLngBounds.init (PyObj.point sw) (PyObj.point ne) =
        Except.error (GeoError.invalidValue
          ("invalid longitude bounds: west coord: " ++ sw.toStr ++
            " must not be equal to east coord: " ++ ne.toStr))) ∧
    (LatLngPoint.add sw o = Except.error (GeoError.invalidType
      ("invalid type for add: expected LatLngPoint got: " ++ o.typeStr))) ∧
    (LatLngPoint.sub sw o = Except.error (GeoError.invalidType
      ("invalid type for subtract: expected LatLngPoint got: " ++ o.typeStr))) ∧
    (LatLngBounds.Contains ⟨sw, ne, true⟩ o = Except.error (GeoError.invalidType
      ("invalid type for point: expected LatLngPoint got: " ++ o.typeStr))) ∧
    (LatLngBounds.init o (PyObj.point ne) = Except.error (GeoError.invalidType
      ("invalid type for SW point: expected LatLngPoint got: " ++ o.typeStr))) ∧
    (LatLngPoint.init o (PyObj.num lng) = Except.error (GeoError.invalidType
      ("invalid type for latitude: expected <float>|<int> got: " ++ o.typeStr))) := by
  refine ⟨?_, ?_, ?_, ?_, ?_, ?_, ?_, ?_, ?_⟩
  · intro h
    simp only [LatLngPoint.init]
    rw [if_pos h]
  · intro h1 h2
    have hA : ¬ (lat < -90 ∨ lat > 90) := by
      push_neg
      exact ⟨by linarith [h1.1], by linarith [h1.2]⟩
    simp only [LatLngPoint.init]
    rw [if_neg hA, if_pos h2]
  · intro h
    simp only [LatLngBounds.init]
    rw [if_pos h]
  · intro hlt hlng
    simp only [LatLngBounds.init]
    rw [if_neg (not_le.mpr hlt), if_pos hlng]
  · cases o with
    | num q => rfl
    | point pp => exact absurd ho (by simp [PyObj.isPoint])
    | str s => rfl
  · cases o with
    | num q => rfl
    | point pp => exact absurd ho (by simp [PyObj.isPoint])
    | str s => rfl
  · cases o with
    | num q => rfl
    | point pp => exact absurd ho (by simp [PyObj.isPoint])
    | str s => rfl
  · cases o with
    | num q => rfl
    | point pp => exact absurd ho (by simp [PyObj.isPoint])
    | str s => rfl
  · cases o with
    | num q => exact absurd ho2 (by simp [PyObj.isNum])
    | point pp => rfl
    | str s => rfl

/-- Witness for C9 amended: an out-of-range latitude of 91 is reported with
the formatted value, whose rendering evaluates to the string 91.00, and a
string operand of Add is reported with its type. -/
theorem error_msg_amended_witness :
    LatLngPoint.init (PyObj.num 91) (PyObj.num 45) =
      Except.error (GeoError.invalidValue
        ("invalid latitude value: expected [-90.0, 90.0]: got: " ++ fmt2 91)) ∧
    LatLngPoint.add ⟨10, 10⟩ (PyObj.str ("(10,10)")) =
      Except.error (GeoError.invalidType
        ("invalid type for add: expected LatLngPoint got: " ++
          PyObj.typeStr (PyObj.str ("(10,10)")))) ∧
    fmt2 91 = ("91.00") :=
  ⟨(error_msg_amended 91 45 ⟨10, 10⟩ ⟨20, 20⟩ (PyObj.str ("(10,10)")) rfl rfl).1
      (Or.inr (by norm_num)),
    (error_msg_amended 91 45 ⟨10, 10⟩ ⟨20, 20⟩ (PyObj.str ("(10,10)")) rfl rfl).2.2.2.2.1,
    by decide⟩
